import Mathlib

/-!
Verification of the Bystro Python client (bystro/api and bystro/cli modules)
against its natural-language specification.

The Python source is shallowly embedded: every operation becomes a pure Lean
function.  Stateful pieces are made explicit:
  * the local filesystem is a map from paths to optional file contents;
  * every HTTP exchange is represented by passing the server's response for
    each request the operation makes as an explicit argument, and each
    operation additionally returns the list of `HttpRequest`s it actually sent
    (in order), so "no request was sent" is the statement that this list is
    empty;
  * Python exceptions become the `Except ClientError` monad, with one
    constructor per Python exception class that the code can raise.

JSON encoding/decoding done by the `msgspec`/`json` libraries is modelled by
executable encoders/decoders over the subset of JSON shapes the client itself
produces (objects whose values are strings, with standard string escaping).
-/

namespace Bystro

/-! ## String helpers (substring search, JSON string escaping, basename) -/

/-- Is `n` a leading segment of `h`? (Bool-valued matcher used by `containsL`.) -/
def subAt : List Char → List Char → Bool
  | [], _ => true
  | _ :: _, [] => false
  | a :: as, b :: bs => a == b && subAt as bs

/-- Does `needle` occur contiguously inside the second list? -/
def containsL (needle : List Char) : List Char → Bool
  | [] => needle.isEmpty
  | c :: cs => subAt needle (c :: cs) || containsL needle cs

/-- Does the string `needle` occur inside `hay`? Models Python's `in` on `str`. -/
def containsS (needle hay : String) : Bool := containsL needle.toList hay.toList

/-- Everything after the last `/` of a path; models `os.path.basename` and
`pathlib.Path(...).name` on ordinary file paths. -/
def basename (p : String) : String :=
  ⟨p.toList.foldl (fun acc c => if c = '/' then [] else acc ++ [c]) []⟩

/-- Python's `str.strip()` (whitespace from both ends). -/
def pyStrip (s : String) : String :=
  ⟨((s.toList.dropWhile Char.isWhitespace).reverse.dropWhile Char.isWhitespace).reverse⟩

/-- Python's `str.lower()` (ASCII case folding suffices for the header
strings involved). -/
def pyLower (s : String) : String := ⟨s.toList.map Char.toLower⟩

/-- JSON escape of a single character, as produced by the JSON encoders the
client uses for the strings it writes. -/
def escChar (c : Char) : List Char :=
  if c = '"' then ['\\', '"']
  else if c = '\\' then ['\\', '\\']
  else if c = '\n' then ['\\', 'n']
  else if c = '\t' then ['\\', 't']
  else if c = '\r' then ['\\', 'r']
  else [c]

/-- JSON escape of a character list. -/
def escList : List Char → List Char
  | [] => []
  | c :: cs => escChar c ++ escList cs

/-- A JSON string literal (quotes plus escaped body). -/
def quoteStr (s : String) : String := "\"" ++ ⟨escList s.toList⟩ ++ "\""

/-- Inverse of `escChar`'s second character. -/
def unescChar (c : Char) : Option Char :=
  if c = '"' then some '"'
  else if c = '\\' then some '\\'
  else if c = 'n' then some '\n'
  else if c = 't' then some '\t'
  else if c = 'r' then some '\r'
  else none

/-- Parse the body of a JSON string up to (and consuming) the closing quote,
returning the unescaped body and the unconsumed remainder. -/
def parseStrBody : List Char → Option (List Char × List Char)
  | [] => none
  | c :: rest =>
    if c = '"' then some ([], rest)
    else if c = '\\' then
      match rest with
      | [] => none
      | e :: rest2 => do
          let d ← unescChar e
          let (body, rem) ← parseStrBody rest2
          pure (d :: body, rem)
    else do
      let (body, rem) ← parseStrBody rest
      pure (c :: body, rem)

/-- Parse a complete JSON string literal (opening quote included). -/
def parseJStrL : List Char → Option (List Char × List Char)
  | '"' :: rest => parseStrBody rest
  | _ => none

/-- Consume a literal token from the front of the input. -/
def dropLit : List Char → List Char → Option (List Char)
  | [], s => some s
  | _ :: _, [] => none
  | c :: cs, d :: ds => if c = d then dropLit cs ds else none

/-! ## Data model -/

/-- The authentication state cached on disk (`CachedAuth` in `bystro/cli/auth.py`);
field order follows the Python `Struct` declaration (msgspec encodes fields in
declaration order, renaming `access_token` to camel-case `accessToken`). -/
structure CachedAuth where
  email : String
  access_token : String
  url : String
deriving DecidableEq, Repr

/-- One constructor per Python exception class the embedded code can raise. -/
inductive ClientError where
  | valueError (msg : String)
  | runtimeError (msg : String)
  | nameError (msg : String)
  | typeError (msg : String)
  | decodeError (msg : String)
  | exception (msg : String)
  | fileNotFound (msg : String)
deriving DecidableEq, Repr

/-- The message carried by a raised error. -/
def ClientError.msg : ClientError → String
  | .valueError m => m
  | .runtimeError m => m
  | .nameError m => m
  | .typeError m => m
  | .decodeError m => m
  | .exception m => m
  | .fileNotFound m => m

inductive Method where
  | get | post | put | patch
deriving DecidableEq, Repr

/-- A JSON value, as far as the client's request payloads need (numbers are
kept as their source-text literals; no claim inspects them numerically). -/
inductive Jx where
  | null
  | str (s : String)
  | num (lit : String)
  | bool (b : Bool)
  | obj (fields : List (String × Jx))
deriving Repr

/-- The request payload: nothing, form fields plus multipart file parts, or a
JSON body.  A multipart file part is `(field name, file name, content type)`;
the file bytes themselves are not modelled (the client only forwards them). -/
inductive RequestBody where
  | empty
  | form (fields : List (String × String)) (files : List (String × String × String))
  | json (v : Jx)
deriving Repr

structure HttpRequest where
  method : Method
  url : String
  headers : List (String × String)
  body : RequestBody
  timeout : Option Nat
deriving Repr

/-- The file parts of a request (empty for non-multipart bodies). -/
def HttpRequest.files : HttpRequest → List (String × String × String)
  | { body := .form _ fs, .. } => fs
  | _ => []

/-- The server's answer to one request: status code and raw body text. -/
structure HttpResponse where
  status_code : Nat
  text : String
deriving DecidableEq, Repr

/-- Decidable equality of `Except` values with decidable components (used to
evaluate theorems about the embedding at concrete inputs). -/
instance {ε α : Type} [DecidableEq ε] [DecidableEq α] : DecidableEq (Except ε α) :=
  fun x y =>
  match x, y with
  | .ok a, .ok b =>
    if h : a = b then .isTrue (congrArg Except.ok h)
    else .isFalse (fun hh => h (Except.ok.inj hh))
  | .error a, .error b =>
    if h : a = b then .isTrue (congrArg Except.error h)
    else .isFalse (fun hh => h (Except.error.inj hh))
  | .ok _, .error _ => .isFalse (fun hh => Except.noConfusion hh)
  | .error _, .ok _ => .isFalse (fun hh => Except.noConfusion hh)

/-- The local filesystem: a map from paths to the contents of existing files. -/
def FS : Type := String → Option String

/-- Write (create or overwrite) one file. -/
def FS.write (fs : FS) (path content : String) : FS :=
  fun q => if q = path then some content else fs q

/-! ## JSON codecs for the record shapes the client reads and writes -/

/-- Encoder for `CachedAuth` as `msgspec.json.encode` produces it: fields in
declaration order, `access_token` renamed to `accessToken`. -/
def encodeCachedAuth (a : CachedAuth) : String :=
  "\x7b\"email\":" ++ quoteStr a.email ++ ",\"accessToken\":" ++ quoteStr a.access_token
    ++ ",\"url\":" ++ quoteStr a.url ++ "\x7d"

/-- Decoder for the `CachedAuth` JSON shape written by `encodeCachedAuth`
(models `msgspec.json.decode(..., type=CachedAuth)` on the files this client
itself writes). -/
def decodeCachedAuthL (l : List Char) : Option CachedAuth := do
  let r0 ← dropLit "\x7b\"email\":".toList l
  let (e, r1) ← parseJStrL r0
  let r2 ← dropLit ",\"accessToken\":".toList r1
  let (t, r3) ← parseJStrL r2
  let r4 ← dropLit ",\"url\":".toList r3
  let (u, r5) ← parseJStrL r4
  let r6 ← dropLit "\x7d".toList r5
  if r6 = [] then some ⟨⟨e⟩, ⟨t⟩, ⟨u⟩⟩ else none

def decodeCachedAuth (s : String) : Option CachedAuth := decodeCachedAuthL s.toList

/-- Decoder for the login/signup response shape `\x7b"accessToken":"..."\x7d`
(models `msgspec.json.decode(..., type=LoginResponse)`; both `LoginResponse`
and `SignupResponse` carry the single `access_token` field). -/
def decodeAccessToken (s : String) : Option String := do
  let r0 ← dropLit "\x7b\"accessToken\":".toList s.toList
  let (t, r1) ← parseJStrL r0
  let r2 ← dropLit "\x7d".toList r1
  if r2 = [] then some ⟨t⟩ else none

/-- Partial model of `response.json().get("_id")`: reads the `_id` field of a
JSON object whose first key is `_id`, ignoring the rest of the object. -/
def jsonGetId (s : String) : Option String := do
  let r0 ← dropLit "\x7b\"_id\":".toList s.toList
  let (i, _) ← parseJStrL r0
  pure ⟨i⟩

/-! ## `bystro/cli/auth.py` -/

def STATE_FILE : String := "bystro_authentication_token.json"

/-- Path of the credential file inside a credentials directory
(`os.path.join(bystro_credentials_dir, STATE_FILE)`). -/
def statePath (bystro_credentials_dir : String) : String :=
  bystro_credentials_dir ++ "/" ++ STATE_FILE

/-- Embedding of `load_state`: read and decode the credential file, or `none`
when the file does not exist.  A file that exists but fails to decode raises
msgspec's decode error, modelled by the `.decodeError` constructor. -/
def load_state (fs : FS) (bystro_credentials_dir : String) :
    Except ClientError (Option CachedAuth) :=
  match fs (statePath bystro_credentials_dir) with
  | none => .ok none
  | some content =>
    match decodeCachedAuth content with
    | some a => .ok (some a)
    | none => .error (.decodeError "msgspec could not decode the credential file")

/-- Embedding of `save_state`: (re)write the credential file with the encoded
auth state (`os.makedirs` and `print_result` have no observable effect here). -/
def save_state (data : CachedAuth) (fs : FS) (bystro_credentials_dir : String) : FS :=
  fs.write (statePath bystro_credentials_dir) (encodeCachedAuth data)

/-- The exact message of the not-logged-in `ValueError` in `authenticate`. -/
def notLoggedInMsg : String := "\n\nYou are not logged in. Please login first.\n"

/-- Embedding of `authenticate`: load the cached state and build the
`Authorization: Bearer ...` header; raise a `ValueError` when no state was
loaded (`if not state:` — a `CachedAuth` instance is always truthy). -/
def authenticate (fs : FS) (bystro_credentials_dir : String) :
    Except ClientError (CachedAuth × List (String × String)) :=
  match load_state fs bystro_credentials_dir with
  | .error e => .error e
  | .ok none => .error (.valueError notLoggedInMsg)
  | .ok (some state) =>
    .ok (state, [("Authorization", "Bearer " ++ state.access_token)])

/-- Embedding of `_fq_host`. -/
def fq_host (host : String) (port : Nat) : String := host ++ ":" ++ toString port

/-- Embedding of `login`: POST the credentials to `/api/user/auth/local`,
raise `RuntimeError` on a non-200 status, otherwise decode the token and save
the new state.  Returns the result, the updated filesystem and the requests
sent.  `resp` is the server's answer to the single POST. -/
def login (fs : FS) (email password host : String) (port : Nat)
    (bystro_credentials_dir : String) (resp : HttpResponse) :
    Except ClientError CachedAuth × FS × List HttpRequest :=
  let fq := fq_host host port
  let url := fq ++ "/api/user/auth/local"
  let req : HttpRequest :=
    { method := .post, url := url, headers := [],
      body := .form [("email", email), ("password", password)] [], timeout := some 30 }
  if resp.status_code != 200 then
    (.error (.runtimeError ("Login failed with response status: "
        ++ toString resp.status_code ++ ". Error: \n" ++ resp.text ++ "\n")), fs, [req])
  else
    match decodeAccessToken resp.text with
    | none => (.error (.decodeError "msgspec could not decode the login response"), fs, [req])
    | some tok =>
      let state : CachedAuth := ⟨email, tok, fq⟩
      (.ok state, save_state state fs bystro_credentials_dir, [req])

/-- Embedding of `signup`: PUT the account data to `/api/user`; the non-200
error message is the same "Login failed ..." text as in `login` (so in the
source). -/
def signup (fs : FS) (email password name host : String) (port : Nat)
    (bystro_credentials_dir : String) (resp : HttpResponse) :
    Except ClientError CachedAuth × FS × List HttpRequest :=
  let fq := fq_host host port
  let url := fq ++ "/api/user"
  let req : HttpRequest :=
    { method := .put, url := url, headers := [],
      body := .form [("email", email), ("name", name), ("password", password)] [],
      timeout := some 30 }
  if resp.status_code != 200 then
    (.error (.runtimeError ("Login failed with response status: "
        ++ toString resp.status_code ++ ". Error: \n" ++ resp.text ++ "\n")), fs, [req])
  else
    match decodeAccessToken resp.text with
    | none => (.error (.decodeError "msgspec could not decode the signup response"), fs, [req])
    | some tok =>
      let state : CachedAuth := ⟨email, tok, fq⟩
      (.ok state, save_state state fs bystro_credentials_dir, [req])

/-! ## `bystro/api/annotation.py` and `bystro/cli/cli.py` (job client)

Both files carry the same `get_jobs`/`create_job` logic; the embedding follows
the API module (`annotation.py`), whose `authenticate` (imported from the
near-duplicate `bystro.api.auth`) is taken to be `cli/auth.py`'s
`authenticate` above, with the credentials directory passed explicitly.
Decoding of successful response bodies into `JobBasicResponse`/`UserProfile`
records is a msgspec library boundary no claim observes; success results thus
carry the raw response text. -/

/-- Python truthiness of an optional string argument: `None` and `""` are
falsy, any other string is truthy. -/
def truthy : Option String → Bool
  | none => false
  | some s => !s.isEmpty

/-- Python's `f"...{x}..."` rendering of an optional-string variable. -/
def optStr : Option String → String
  | none => "None"
  | some s => s

def JOB_TYPE_ROUTE_MAP : List (String × String) :=
  [("all", "/list/all"), ("public", "/list/all/public"), ("shared", "/list/shared"),
   ("incomplete", "/list/incomplete"), ("completed", "/list/completed"),
   ("failed", "/list/failed")]

/-- Membership test `job_type not in JOB_TYPE_ROUTE_MAP.keys()` (negated);
`None` is not a key. -/
def jobTypeValid : Option String → Bool
  | none => false
  | some t => (JOB_TYPE_ROUTE_MAP.lookup t).isSome

/-- Route lookup `JOB_TYPE_ROUTE_MAP[job_type]`; only evaluated by `get_jobs`
under the guard that made the lookup succeed, so the `""` default is dead. -/
def routeOf : Option String → String
  | none => ""
  | some t => (JOB_TYPE_ROUTE_MAP.lookup t).getD ""

/-- The `', '.join(JOB_TYPE_ROUTE_MAP.keys())` fragment of the invalid-type
message. -/
def validTypesStr : String := "all, public, shared, incomplete, completed, failed"

/-- Embedding of `get_jobs`: authenticate, validate the job id / job type
arguments, build the request URL, send one GET and raise `RuntimeError` on a
non-200 response.  `resp` answers the single GET (unused when validation
fails first). -/
def get_jobs (fs : FS) (bystro_credentials_dir : String)
    (job_type job_id : Option String) (resp : HttpResponse) :
    Except ClientError String × List HttpRequest :=
  match authenticate fs bystro_credentials_dir with
  | .error e => (.error e, [])
  | .ok (state, auth_header) =>
    let url := state.url ++ "/api/jobs"
    if !(truthy job_id || truthy job_type) then
      (.error (.valueError "Please specify either a job id or a job type"), [])
    else if truthy job_id && truthy job_type then
      (.error (.valueError "Please specify either a job id or a job type, not both"), [])
    else if !truthy job_id && !jobTypeValid job_type then
      (.error (.valueError ("Invalid job type: " ++ optStr job_type
          ++ ". Valid types are: " ++ validTypesStr)), [])
    else
      let url := if truthy job_id then url ++ "/" ++ optStr job_id
                 else url ++ routeOf job_type
      let req : HttpRequest :=
        { method := .get, url := url, headers := auth_header,
          body := .empty, timeout := some 120 }
      if resp.status_code != 200 then
        (.error (.runtimeError ("Fetching jobs failed with response status: "
            ++ toString resp.status_code ++ ". Error: " ++ resp.text)), [req])
      else
        (.ok resp.text, [req])

/-- The `mjson.encode({"assembly": ..., "options": {"index": ...}})` payload
of `create_job`. -/
def encodeJobOptions (assembly : String) (index : Bool) : String :=
  "\x7b\"assembly\":" ++ quoteStr assembly ++ ",\"options\":\x7b\"index\":"
    ++ (if index then "true" else "false") ++ "\x7d\x7d"

/-- Embedding of the API module's `create_job`.  The source rebinds its
`files` parameter to `[]` immediately before `for file in files:`, so the
loop iterates over the freshly emptied list and appends nothing: the POST is
always sent with an empty list of multipart file parts, whatever paths were
passed in.  The `files0` argument below is therefore (faithfully) unused. -/
def create_job (fs : FS) (bystro_credentials_dir : String)
    (files0 : List String) (assembly : String) (index : Bool) (resp : HttpResponse) :
    Except ClientError String × List HttpRequest :=
  match authenticate fs bystro_credentials_dir with
  | .error e => (.error e, [])
  | .ok (state, auth_header) =>
    let url := state.url ++ "/api/jobs/upload/"
    let payload := [("job", encodeJobOptions assembly index)]
    let files : List (String × String × String) := []
    let req : HttpRequest :=
      { method := .post, url := url, headers := auth_header,
        body := .form payload files, timeout := some 30 }
    if resp.status_code != 200 then
      (.error (.runtimeError ("Job creation failed with response status: "
          ++ toString resp.status_code
          ++ ".                Error: \n" ++ resp.text ++ "\n")), [req])
    else
      (.ok resp.text, [req])

/-- The multipart parts `("file", (os.path.basename(f), open(f, "rb"),
"application/octet-stream"))` that the `create_job` loop was written to build
from its argument — what the CLI variant (`cli/cli.py`) actually attaches. -/
def intendedFileParts (files : List String) : List (String × String × String) :=
  files.map (fun f => ("file", basename f, "application/octet-stream"))

/-- Embedding of `get_user` (`cli/cli.py`): one authenticated GET of
`/api/user/me`, raising `RuntimeError` on a non-200 response. -/
def get_user (fs : FS) (bystro_credentials_dir : String) (resp : HttpResponse) :
    Except ClientError String × List HttpRequest :=
  match authenticate fs bystro_credentials_dir with
  | .error e => (.error e, [])
  | .ok (state, auth_header) =>
    let req : HttpRequest :=
      { method := .get, url := state.url ++ "/api/user/me", headers := auth_header,
        body := .empty, timeout := some 30 }
    if resp.status_code != 200 then
      (.error (.runtimeError ("Fetching profile failed with response status: "
          ++ toString resp.status_code
          ++ ".                Error: \n" ++ resp.text ++ "\n")), [req])
    else
      (.ok resp.text, [req])

/-- The OpenSearch `searchBody` payload built by `query`. -/
def queryPayload (q : String) (size from_ : Int) : Jx :=
  .obj [("from", .num (toString from_)),
        ("query", .obj [("bool", .obj [("must", .obj [("query_string",
          .obj [("default_operator", .str "AND"), ("query", .str q),
                ("lenient", .bool true), ("phrase_slop", .num "5"),
                ("tie_breaker", .num "0.3")])])])]),
        ("size", .num (toString size))]

/-- Embedding of the API module's `query`.  The whole request/decode/print
sequence sits in a `try:` block whose `except Exception:` handler calls
`sys.stderr.write`; `sys` is never imported in `annotation.py`, so the
handler itself fails with `NameError: name 'sys' is not defined`.  A non-200
status therefore surfaces as that `NameError`, not as the internal
`RuntimeError` carrying status and body.  On a 200 response the handler is
not reached; decoding/printing of the successful body is not modelled. -/
def query (fs : FS) (bystro_credentials_dir : String)
    (job_id q : String) (size from_ : Int) (resp : HttpResponse) :
    Except ClientError Unit × List HttpRequest :=
  match authenticate fs bystro_credentials_dir with
  | .error e => (.error e, [])
  | .ok (state, auth_header) =>
    let req : HttpRequest :=
      { method := .post, url := state.url ++ "/api/jobs/" ++ job_id ++ "/search",
        headers := auth_header,
        body := .json (.obj [("id", .str job_id), ("searchBody", queryPayload q size from_)]),
        timeout := some 30 }
    if resp.status_code != 200 then
      (.error (.nameError "name 'sys' is not defined"), [req])
    else
      (.ok (), [req])

/-! ## `bystro/api/proteomics.py` -/

def UPLOAD_PROTEIN_ENDPOINT : String := "/api/jobs/proteomics/"

/-- The first line of a file's contents, as `file.readline()` reads it
(without the trailing newline, which the subsequent `.strip()` removes
anyway). -/
def firstLineOf (s : String) : String := ⟨s.toList.takeWhile (fun c => c ≠ '\n')⟩

def abundance_required_headers : List String :=
  ["Index", "NumberPSM", "ProteinID", "MaxPepProb", "ReferenceIntensity"]

/-- The API module's header check: the stripped, lower-cased first line must
contain the lower-cased text of every required header
(`header.lower() in first_line` with `first_line = readline().strip().lower()`). -/
def headersPresent (content : String) : Bool :=
  let first_line := pyLower (pyStrip (firstLineOf content))
  abundance_required_headers.all (fun h => containsS (pyLower h) first_line)

/-- The `json.dumps(job_payload)` form field of the proteomics upload POST. -/
def encodeProtJob (fname dtype : String) : String :=
  "\x7b\"protein_abundance_file\": " ++ quoteStr fname
    ++ ", \"proteomics_dataset_type\": " ++ quoteStr dtype
    ++ ", \"assembly\": \"N/A\"\x7d"

/-- A JSON value for a Python `str | None`. -/
def jxOpt : Option String → Jx
  | none => .null
  | some s => .str s

/-- Rendered `json.dumps` of the final link dict (the `indent=4` layout of the
Python output is not reproduced; no claim inspects this print). -/
def dumpsLink (aid pid : Option String) : String :=
  "\x7b\"annotationID\": " ++ (match aid with | none => "null" | some s => quoteStr s)
    ++ ", \"proteomicsID\": " ++ (match pid with | none => "null" | some s => quoteStr s)
    ++ "\x7d"

/-- Print messages of `upload_proteomics_dataset` (the two status-code
messages and the annotation-missing message are plain strings in the source —
the `f` prefix is missing — so the brace placeholders are printed literally). -/
def headerErrMsg : String :=
  "Error: The protein abundance file does not contain the required headers."

def annMissingMsg : String :=
  "The annotation with ID \x7bannotation_job_id\x7d does not exist or you do not have "
    ++ "permissions to access this annotation."

def patchAnnFailMsg : String :=
  "Failed to update annotation job. "
    ++ "Status code: \x7bupdate_annotation_response.status_code\x7d"

def patchProtFailMsg : String :=
  "Failed to update proteomics job. "
    ++ "Status code: \x7bupdate_proteomics_response.status_code\x7d"

/-- The server's answers to the up-to-four requests `upload_proteomics_dataset`
can make, in program order; a field is unused when the request is not sent. -/
structure ProtResponses where
  annotation_response : HttpResponse
  upload_response : HttpResponse
  update_annotation_response : HttpResponse
  update_proteomics_response : HttpResponse

/-- Embedding of the API module's `upload_proteomics_dataset`.  Notable
source behaviour kept faithfully:
  * the required-header check runs before anything else and returns `\x7b\x7d`
    with a printed message on failure;
  * `annotation_response` is assigned only inside
    `if annotation_job_id and isinstance(annotation_job_id, str):`, yet its
    `.status_code` is read unconditionally right after, so a falsy
    `annotation_job_id` hits an unbound local variable (a `NameError`);
  * `proteomics_job_id` is assigned only inside the upload-success block, yet
    `final_response` reads it unconditionally afterwards, so a failed upload
    also hits an unbound local;
  * when the upload succeeded, the closing `if print_result:` returns the
    link dict, and the fall-through `raise Exception("Upload failed ...")`
    fires even for status 200 whenever `print_result` is false;
  * a missing `_id` in the upload response makes the second PATCH's URL
    concatenation `state.url + UPLOAD_PROTEIN_ENDPOINT + None` a `TypeError`
    (after the first PATCH was already sent).
Results are dicts as association lists (`[]` is Python's `\x7b\x7d`); the
second and third components are the requests sent and the lines printed.
`response.json()` raising on malformed bodies is conflated with a missing
`_id` field (both yield `pid = none`); no claim distinguishes them. -/
def upload_proteomics_dataset (fs : FS) (protein_abundance_file : String)
    (experiment_annotation_file annotation_job_id : Option String)
    (proteomics_dataset_type : String) (user_dir : String) (print_result : Bool)
    (rs : ProtResponses) :
    Except ClientError (List (String × Option String)) × List HttpRequest × List String :=
  match fs protein_abundance_file with
  | none => (.error (.fileNotFound protein_abundance_file), [], [])
  | some content =>
    if !headersPresent content then
      (.ok [], [], [headerErrMsg])
    else
      match authenticate fs user_dir with
      | .error e => (.error e, [], [])
      | .ok (state, auth_header) =>
        let url := state.url ++ UPLOAD_PROTEIN_ENDPOINT
        let annGet : Option (HttpRequest × HttpResponse) :=
          if truthy annotation_job_id then
            some ({ method := .get,
                    url := state.url ++ "/api/jobs/" ++ optStr annotation_job_id,
                    headers := auth_header, body := .empty, timeout := none },
                  rs.annotation_response)
          else none
        match annGet with
        | none =>
          (.error (.nameError
            "cannot access local variable 'annotation_response' where it is not associated with a value"),
           [], [])
        | some (req1, annotation_response) =>
          if annotation_response.status_code != 200 then
            (.ok [], [req1], [annMissingMsg])
          else
            let files : List (String × String × String) :=
              ("file", basename protein_abundance_file, "application/octet-stream")
                :: (match experiment_annotation_file with
                    | some eaf =>
                      if !eaf.isEmpty then [("file", basename eaf, "application/octet-stream")]
                      else []
                    | none => [])
            let req2 : HttpRequest :=
              { method := .post, url := url, headers := auth_header,
                body := .form
                  [("job", encodeProtJob (basename protein_abundance_file)
                      proteomics_dataset_type)] files,
                timeout := none }
            if rs.upload_response.status_code == 200 then
              let prints0 := ["\nProteomics Upload response: " ++ rs.upload_response.text]
              let pid : Option String := jsonGetId rs.upload_response.text
              if annotation_job_id.isSome then
                let req3 : HttpRequest :=
                  { method := .patch,
                    url := state.url ++ "/api/jobs/" ++ optStr annotation_job_id,
                    headers := auth_header,
                    body := .json (.obj [("proteomicsID", jxOpt pid)]), timeout := none }
                let prints1 := prints0 ++
                  (if rs.update_annotation_response.status_code != 200
                   then [patchAnnFailMsg] else [])
                match pid with
                | none =>
                  (.error (.typeError
                    "can only concatenate str (not \"NoneType\") to str"),
                   [req1, req2, req3], prints1)
                | some p =>
                  let req4 : HttpRequest :=
                    { method := .patch, url := state.url ++ UPLOAD_PROTEIN_ENDPOINT ++ p,
                      headers := auth_header,
                      body := .json (.obj [("annotationID", .str (optStr annotation_job_id))]),
                      timeout := none }
                  let prints2 := prints1 ++
                    (if rs.update_proteomics_response.status_code != 200
                     then [patchProtFailMsg] else [])
                  let final : List (String × Option String) :=
                    [("annotationID", annotation_job_id), ("proteomicsID", some p)]
                  if print_result then
                    (.ok final, [req1, req2, req3, req4],
                     prints2 ++ ["\nLink established successfully.\n",
                                 dumpsLink annotation_job_id (some p)])
                  else
                    (.error (.exception ("Upload failed with status code "
                        ++ toString rs.upload_response.status_code ++ ": "
                        ++ rs.upload_response.text)),
                     [req1, req2, req3, req4], prints2)
              else
                -- dead in practice: a `none` annotation_job_id already failed with
                -- the unbound `annotation_response` above
                let final : List (String × Option String) :=
                  [("annotationID", annotation_job_id), ("proteomicsID", pid)]
                if print_result then
                  (.ok final, [req1, req2],
                   prints0 ++ ["\nLink established successfully.\n",
                               dumpsLink annotation_job_id pid])
                else
                  (.error (.exception ("Upload failed with status code "
                      ++ toString rs.upload_response.status_code ++ ": "
                      ++ rs.upload_response.text)), [req1, req2], prints0)
            else
              (.error (.nameError
                "cannot access local variable 'proteomics_job_id' where it is not associated with a value"),
               [req1, req2], [])

/-! ## General lemmas about the string machinery -/

theorem toList_append (s t : String) : (s ++ t).toList = s.toList ++ t.toList :=
  String.data_append s t

theorem mk_toList (s : String) : (⟨s.toList⟩ : String) = s := rfl

theorem subAt_append (n rest : List Char) : subAt n (n ++ rest) = true := by
  induction n with
  | nil => rfl
  | cons a as ih => simp [subAt, ih]

theorem containsL_self_append (n y : List Char) : containsL n (n ++ y) = true := by
  cases n with
  | nil => cases y <;> rfl
  | cons m ms =>
    show containsL (m :: ms) (m :: (ms ++ y)) = true
    rw [containsL]
    have h : subAt (m :: ms) (m :: (ms ++ y)) = true := subAt_append (m :: ms) y
    rw [h]
    rfl

theorem containsL_append (x n y : List Char) : containsL n (x ++ (n ++ y)) = true := by
  induction x with
  | nil => simpa using containsL_self_append n y
  | cons c cs ih =>
    show containsL n (c :: (cs ++ (n ++ y))) = true
    rw [containsL, ih]
    simp

theorem containsS_sandwich (a n b : String) : containsS n (a ++ n ++ b) = true := by
  unfold containsS
  rw [toList_append, toList_append, List.append_assoc]
  exact containsL_append a.toList n.toList b.toList

theorem dropLit_append (k rest : List Char) : dropLit k (k ++ rest) = some rest := by
  induction k with
  | nil => rfl
  | cons c cs ih => simp [dropLit, ih]

theorem dropLit_self (k : List Char) : dropLit k k = some [] := by
  have := dropLit_append k []
  simpa using this

theorem parseStrBody_esc (l rest : List Char) :
    parseStrBody (escList l ++ '"' :: rest) = some (l, rest) := by
  induction l with
  | nil =>
    rw [show escList [] ++ '"' :: rest = '"' :: rest from rfl, parseStrBody.eq_def]
    simp
  | cons c cs ih =>
    by_cases h1 : c = '"'
    · subst h1
      rw [show escList ('"' :: cs) ++ '"' :: rest =
        '\\' :: '"' :: (escList cs ++ '"' :: rest) from rfl, parseStrBody.eq_def]
      simp [unescChar, ih]
    · by_cases h2 : c = '\\'
      · subst h2
        rw [show escList ('\\' :: cs) ++ '"' :: rest =
          '\\' :: '\\' :: (escList cs ++ '"' :: rest) from rfl, parseStrBody.eq_def]
        simp [unescChar, ih]
      · by_cases h3 : c = '\n'
        · subst h3
          rw [show escList ('\n' :: cs) ++ '"' :: rest =
            '\\' :: 'n' :: (escList cs ++ '"' :: rest) from rfl, parseStrBody.eq_def]
          simp [unescChar, ih]
        · by_cases h4 : c = '\t'
          · subst h4
            rw [show escList ('\t' :: cs) ++ '"' :: rest =
              '\\' :: 't' :: (escList cs ++ '"' :: rest) from rfl, parseStrBody.eq_def]
            simp [unescChar, ih]
          · by_cases h5 : c = '\r'
            · subst h5
              rw [show escList ('\r' :: cs) ++ '"' :: rest =
                '\\' :: 'r' :: (escList cs ++ '"' :: rest) from rfl, parseStrBody.eq_def]
              simp [unescChar, ih]
            · have hesc : escList (c :: cs) ++ '"' :: rest =
                  c :: (escList cs ++ '"' :: rest) := by
                simp [escList, escChar, h1, h2, h3, h4, h5]
              rw [hesc, parseStrBody.eq_def]
              simp [h1, h2, ih]

theorem parseJStr_quote (s : String) (rest : List Char) :
    parseJStrL ((quoteStr s).toList ++ rest) = some (s.toList, rest) := by
  unfold quoteStr
  rw [toList_append, toList_append]
  have h1 : ("\"" : String).toList = ['"'] := rfl
  have h2 : (⟨escList s.toList⟩ : String).toList = escList s.toList := rfl
  rw [h1, h2]
  simp only [List.cons_append, List.nil_append, List.append_assoc]
  unfold parseJStrL
  exact parseStrBody_esc s.toList rest

theorem decode_encode_cachedAuth (a : CachedAuth) :
    decodeCachedAuth (encodeCachedAuth a) = some a := by
  unfold decodeCachedAuth decodeCachedAuthL encodeCachedAuth
  simp only [toList_append, List.append_assoc, dropLit_append, dropLit_self,
    parseJStr_quote, Option.bind_eq_bind, Option.some_bind, mk_toList]
  rfl

/-- Is the request a PATCH? -/
def isPatch (r : HttpRequest) : Bool :=
  match r.method with
  | .patch => true
  | _ => false

/-- Does the credential file, when present, decode? (Rules out only the
corrupted-credential-file scenario, which is outside every claim's scope.) -/
def authFileOk (fs : FS) (dir : String) : Bool :=
  match fs (statePath dir) with
  | none => true
  | some c => (decodeCachedAuth c).isSome

/-- Does a raised error's message carry both the given status code and the
given body text? (`false` as well when no error was raised.) -/
def errCarries {α : Type} (s : Nat) (body : String) : Except ClientError α → Bool
  | .error e => containsS (toString s) e.msg && containsS body e.msg
  | .ok _ => false

theorem containsL_tail (x n : List Char) : containsL n (x ++ n) = true := by
  have h := containsL_append x n []
  simpa using h

theorem containsS_tail (a n : String) : containsS n (a ++ n) = true := by
  unfold containsS
  rw [toList_append]
  exact containsL_tail a.toList n.toList

theorem containsS_statusMid (s : Nat) (pre mid t : String) :
    containsS (toString s) (pre ++ toString s ++ mid ++ t) = true := by
  have e : pre ++ toString s ++ mid ++ t = pre ++ toString s ++ (mid ++ t) := by
    simp [String.append_assoc]
  rw [e]
  exact containsS_sandwich pre (toString s) (mid ++ t)

theorem containsS_statusMidSuf (s : Nat) (pre mid t suf : String) :
    containsS (toString s) (pre ++ toString s ++ mid ++ t ++ suf) = true := by
  have e : pre ++ toString s ++ mid ++ t ++ suf =
      pre ++ toString s ++ (mid ++ t ++ suf) := by
    simp [String.append_assoc]
  rw [e]
  exact containsS_sandwich pre (toString s) (mid ++ t ++ suf)

/-! ## Concrete fixtures used by the witnesses -/

def stW : CachedAuth := ⟨"u@x.com", "tok123", "http://localhost:8080"⟩

def hdrW : List (String × String) := [("Authorization", "Bearer tok123")]

/-- A filesystem whose `/creds` directory holds a valid credential file and
which carries a well-formed and a malformed abundance file. -/
def fsW : FS := fun p =>
  if p = statePath "/creds" then some (encodeCachedAuth stW)
  else if p = "/data/abund.tsv" then
    some "Index\tNumberPSM\tProteinID\tMaxPepProb\tReferenceIntensity\nrow1"
  else if p = "/data/bad.tsv" then some "Gene\tIntensity\nrow1"
  else none

def rsOk : ProtResponses :=
  ⟨⟨200, "\x7b\x7d"⟩, ⟨200, "\x7b\"_id\":\"prot1\"\x7d"⟩, ⟨200, ""⟩, ⟨200, ""⟩⟩

/-! ## Claims -/

/-- C7: the credential file round-trips — `save_state` then `load_state` on
the same directory returns the saved `CachedAuth`, and a second `save_state`
to the same directory overwrites the first (last-writer-wins). -/
theorem save_load_roundtrip (a b : CachedAuth) (fs : FS) (dir : String) :
    load_state (save_state a fs dir) dir = .ok (some a) ∧
    load_state (save_state b (save_state a fs dir) dir) dir = .ok (some b) := by
  constructor <;>
    simp [load_state, save_state, FS.write, decode_encode_cachedAuth]

/-- C6: `authenticate` raises the not-logged-in `ValueError` exactly when no
credential state file exists in the given directory; when the file exists and
decodes to a `CachedAuth`, it returns that state with the header
`Authorization: Bearer <access token>`. -/
theorem authenticate_iff_no_state_file (fs : FS) (dir : String) :
    (authenticate fs dir = .error (.valueError notLoggedInMsg) ↔
      fs (statePath dir) = none) ∧
    (∀ content a, fs (statePath dir) = some content →
      decodeCachedAuth content = some a →
      authenticate fs dir =
        .ok (a, [("Authorization", "Bearer " ++ a.access_token)])) := by
  constructor
  · cases hfs : fs (statePath dir) with
    | none => simp [authenticate, load_state, hfs]
    | some c =>
      cases hdec : decodeCachedAuth c with
      | none => simp [authenticate, load_state, hfs, hdec]
      | some a => simp [authenticate, load_state, hfs, hdec]
  · intro content a hc hd
    simp [authenticate, load_state, hc, hd]

/-- Closed instance of C6's theorem at a concrete filesystem. -/
theorem authenticate_iff_no_state_file_witness :
    authenticate fsW "/creds" =
      .ok (stW, [("Authorization", "Bearer " ++ stW.access_token)]) :=
  (authenticate_iff_no_state_file fsW "/creds").2 (encodeCachedAuth stW) stW
    (by decide) (by decide)

/-- C5: an input file whose first line lacks one of the five required
abundance headers makes `upload_proteomics_dataset` print an error message
and return the empty dict, raising nothing and sending no request at all (in
particular no upload request). -/
theorem upload_rejects_missing_headers (fs : FS) (file dir dtype : String)
    (eaf aid : Option String) (pr : Bool) (rs : ProtResponses) (content : String)
    (hf : fs file = some content) (hh : headersPresent content = false) :
    upload_proteomics_dataset fs file eaf aid dtype dir pr rs =
      (.ok [], [], [headerErrMsg]) := by
  simp [upload_proteomics_dataset, hf, hh]

/-- Closed instance of C5's theorem at a concrete malformed file. -/
theorem upload_rejects_missing_headers_witness :
    upload_proteomics_dataset fsW "/data/bad.tsv" none (some "ann1") "fragpipe-TMT"
      "/creds" true rsOk = (.ok [], [], [headerErrMsg]) :=
  upload_rejects_missing_headers fsW "/data/bad.tsv" "/creds" "fragpipe-TMT"
    none (some "ann1") true rsOk "Gene\tIntensity\nrow1" (by decide) (by decide)

/-- C10: with a well-formed abundance file and no annotation job id, the API
module's `upload_proteomics_dataset` hits the unbound local
`annotation_response` (a `NameError`) before sending any request — in
particular before any upload POST. -/
theorem upload_unbound_annotation_response (fs : FS) (file dir dtype : String)
    (eaf : Option String) (pr : Bool) (rs : ProtResponses) (content : String)
    (st : CachedAuth) (hdr : List (String × String))
    (hf : fs file = some content) (hh : headersPresent content = true)
    (hauth : authenticate fs dir = .ok (st, hdr)) :
    (upload_proteomics_dataset fs file eaf none dtype dir pr rs).1 =
      .error (.nameError
        "cannot access local variable 'annotation_response' where it is not associated with a value") ∧
    (upload_proteomics_dataset fs file eaf none dtype dir pr rs).2.1 = [] := by
  constructor <;> simp [upload_proteomics_dataset, hf, hh, hauth, truthy]

/-- Closed instance of C10's theorem at a concrete well-formed file. -/
theorem upload_unbound_annotation_response_witness :
    (upload_proteomics_dataset fsW "/data/abund.tsv" none none "fragpipe-TMT"
        "/creds" true rsOk).1 =
      .error (.nameError
        "cannot access local variable 'annotation_response' where it is not associated with a value") ∧
    (upload_proteomics_dataset fsW "/data/abund.tsv" none none "fragpipe-TMT"
        "/creds" true rsOk).2.1 = [] :=
  upload_unbound_annotation_response fsW "/data/abund.tsv" "/creds" "fragpipe-TMT"
    none true rsOk "Index\tNumberPSM\tProteinID\tMaxPepProb\tReferenceIntensity\nrow1"
    stW hdrW (by decide) (by decide) (by decide)

/-- A non-empty string is not `isEmpty`. -/
theorem isEmpty_false_of_ne (s : String) (h : s ≠ "") : s.isEmpty = false := by
  have := mt (String.isEmpty_iff s).mp h
  simpa using this

/-- Truthiness of a present, non-empty optional string. -/
theorem truthy_some_of_ne (s : String) (h : s ≠ "") : truthy (some s) = true := by
  simp [truthy, isEmpty_false_of_ne s h]

/-- C3: when neither a job id nor a job type is given, or both are, or only a
job type is given but it is not one of the six known types, `get_jobs` raises
a `ValueError` and sends no HTTP request (granted an uncorrupted credential
file: a missing one still raises a `ValueError`, the not-logged-in one, with
no request sent). -/
theorem get_jobs_rejects_invalid_args (fs : FS) (dir : String)
    (jt jid : Option String) (resp : HttpResponse)
    (hwf : authFileOk fs dir = true)
    (h : (truthy jid = false ∧ truthy jt = false) ∨
         (truthy jid = true ∧ truthy jt = true) ∨
         (truthy jid = false ∧ jobTypeValid jt = false)) :
    (∃ m, (get_jobs fs dir jt jid resp).1 = .error (.valueError m)) ∧
    (get_jobs fs dir jt jid resp).2 = [] := by
  cases hfs : fs (statePath dir) with
  | none =>
    have hauth : authenticate fs dir = .error (.valueError notLoggedInMsg) := by
      simp [authenticate, load_state, hfs]
    constructor
    · exact ⟨notLoggedInMsg, by simp [get_jobs, hauth]⟩
    · simp [get_jobs, hauth]
  | some c =>
    have hdec : (decodeCachedAuth c).isSome = true := by
      unfold authFileOk at hwf
      rw [hfs] at hwf
      exact hwf
    obtain ⟨a, ha⟩ := Option.isSome_iff_exists.mp hdec
    have hauth : authenticate fs dir =
        .ok (a, [("Authorization", "Bearer " ++ a.access_token)]) := by
      simp [authenticate, load_state, hfs, ha]
    rcases h with ⟨h1, h2⟩ | ⟨h1, h2⟩ | ⟨h1, h2⟩
    · constructor
      · exact ⟨"Please specify either a job id or a job type",
          by simp [get_jobs, hauth, h1, h2]⟩
      · simp [get_jobs, hauth, h1, h2]
    · constructor
      · exact ⟨"Please specify either a job id or a job type, not both",
          by simp [get_jobs, hauth, h1, h2]⟩
      · simp [get_jobs, hauth, h1, h2]
    · cases h3 : truthy jt with
      | false =>
        constructor
        · exact ⟨"Please specify either a job id or a job type",
            by simp [get_jobs, hauth, h1, h3]⟩
        · simp [get_jobs, hauth, h1, h3]
      | true =>
        constructor
        · exact ⟨"Invalid job type: " ++ optStr jt ++ ". Valid types are: "
              ++ validTypesStr,
            by simp [get_jobs, hauth, h1, h2, h3]⟩
        · simp [get_jobs, hauth, h1, h2, h3]

/-- Closed instance of C3's theorem: neither a job id nor a job type given. -/
theorem get_jobs_rejects_invalid_args_witness :
    (∃ m, (get_jobs fsW "/creds" none none ⟨200, "[]"⟩).1 =
      .error (.valueError m)) ∧
    (get_jobs fsW "/creds" none none ⟨200, "[]"⟩).2 = [] :=
  get_jobs_rejects_invalid_args fsW "/creds" none none ⟨200, "[]"⟩ (by decide)
    (Or.inl ⟨rfl, rfl⟩)

/-- C4: `get_jobs` builds the request URL deterministically — with a job id
the single GET goes to `<base>/api/jobs/<id>`; with a (valid) job type it
goes to `<base>/api/jobs<route>` where the route map sends `all`, `public`,
`shared`, `incomplete`, `completed`, `failed` to `/list/all`,
`/list/all/public`, `/list/shared`, `/list/incomplete`, `/list/completed`,
`/list/failed` respectively. -/
theorem get_jobs_request_paths (fs : FS) (dir : String) (st : CachedAuth)
    (hdr : List (String × String)) (resp : HttpResponse)
    (hauth : authenticate fs dir = .ok (st, hdr)) :
    (∀ j : String, j ≠ "" →
      (get_jobs fs dir none (some j) resp).2.map (fun r => r.url) =
        [st.url ++ "/api/jobs/" ++ j]) ∧
    (∀ t route : String, JOB_TYPE_ROUTE_MAP.lookup t = some route →
      (get_jobs fs dir (some t) none resp).2.map (fun r => r.url) =
        [st.url ++ "/api/jobs" ++ route]) ∧
    routeOf (some "all") = "/list/all" ∧
    routeOf (some "public") = "/list/all/public" ∧
    routeOf (some "shared") = "/list/shared" ∧
    routeOf (some "incomplete") = "/list/incomplete" ∧
    routeOf (some "completed") = "/list/completed" ∧
    routeOf (some "failed") = "/list/failed" := by
  refine ⟨?_, ?_, rfl, rfl, rfl, rfl, rfl, rfl⟩
  · intro j hj
    have hje : j.isEmpty = false := isEmpty_false_of_ne j hj
    have hlit : ("/api/jobs" : String) ++ "/" = "/api/jobs/" := rfl
    have hurl : st.url ++ "/api/jobs" ++ "/" ++ j = st.url ++ "/api/jobs/" ++ j := by
      rw [String.append_assoc st.url "/api/jobs" "/", hlit]
    unfold get_jobs
    rw [hauth]
    simp only [truthy, optStr, hje, Bool.not_false, Bool.or_false, Bool.and_false,
      Bool.not_true, Bool.false_and, jobTypeValid]
    simp only [if_true, if_false, Bool.false_eq_true, ite_false, ite_true]
    split <;> simp [hurl]
  · intro t route hrt
    have hne : t ≠ "" := by
      intro he
      subst he
      have : JOB_TYPE_ROUTE_MAP.lookup "" = none := by decide
      rw [this] at hrt
      exact Option.noConfusion hrt
    have hte : t.isEmpty = false := isEmpty_false_of_ne t hne
    have htv : jobTypeValid (some t) = true := by simp [jobTypeValid, hrt]
    have hroute : routeOf (some t) = route := by simp [routeOf, hrt]
    unfold get_jobs
    rw [hauth]
    simp only [truthy, optStr, hte, htv, hroute, Bool.not_false, Bool.false_or,
      Bool.and_false, Bool.false_and, Bool.not_true, Bool.and_true, Bool.true_and]
    simp only [if_true, if_false, Bool.false_eq_true, ite_false, ite_true]
    split <;> simp

/-- Closed instance of C4's theorem at a concrete id and a concrete type. -/
theorem get_jobs_request_paths_witness :
    (get_jobs fsW "/creds" none (some "64db4e67") ⟨200, "[]"⟩).2.map
        (fun r => r.url) = [stW.url ++ "/api/jobs/" ++ "64db4e67"] ∧
    (get_jobs fsW "/creds" (some "completed") none ⟨200, "[]"⟩).2.map
        (fun r => r.url) = [stW.url ++ "/api/jobs" ++ "/list/completed"] :=
  ⟨(get_jobs_request_paths fsW "/creds" stW hdrW ⟨200, "[]"⟩ (by decide)).1
      "64db4e67" (by decide),
   (get_jobs_request_paths fsW "/creds" stW hdrW ⟨200, "[]"⟩ (by decide)).2.1
      "completed" "/list/completed" (by decide)⟩

/-- C2 (evaluation of the defect): the API module's `create_job`, called with
one file path, sends its POST with an empty list of multipart file parts —
the `files = []` rebinding empties the parameter before the attachment loop —
although the part the loop was written to build (one per path, named by
basename) is non-empty. -/
theorem create_job_attaches_no_file_parts :
    (create_job fsW "/creds" ["data/trio.trim.vep.vcf.gz"] "hg38" true
        ⟨200, "\x7b\"success\":true\x7d"⟩).2.map (fun r => r.files) = [[]] ∧
    intendedFileParts ["data/trio.trim.vep.vcf.gz"] =
      [("file", "trio.trim.vep.vcf.gz", "application/octet-stream")] := by
  exact ⟨by decide, by decide⟩

/-- C8: when the abundance file is well formed, the caller is authenticated,
an annotation job id is supplied, the annotation exists and the upload
returns 200 with a proteomics id, `upload_proteomics_dataset` sends exactly
two PATCH requests: one to the annotation job record with payload
`proteomicsID = <proteomics job id>` and one to the proteomics job record
with payload `annotationID = <annotation job id>`. -/
theorem upload_links_with_two_patches (fs : FS) (file dir dtype a p content : String)
    (eaf : Option String) (pr : Bool) (rs : ProtResponses)
    (st : CachedAuth) (hdr : List (String × String))
    (hf : fs file = some content) (hh : headersPresent content = true)
    (hauth : authenticate fs dir = .ok (st, hdr)) (hane : a ≠ "")
    (hann : rs.annotation_response.status_code = 200)
    (hup : rs.upload_response.status_code = 200)
    (hid : jsonGetId rs.upload_response.text = some p) :
    (upload_proteomics_dataset fs file eaf (some a) dtype dir pr rs).2.1.filter isPatch =
      [{ method := .patch, url := st.url ++ "/api/jobs/" ++ a, headers := hdr,
         body := .json (.obj [("proteomicsID", .str p)]), timeout := none },
       { method := .patch, url := st.url ++ UPLOAD_PROTEIN_ENDPOINT ++ p, headers := hdr,
         body := .json (.obj [("annotationID", .str a)]), timeout := none }] := by
  have hae : a.isEmpty = false := isEmpty_false_of_ne a hane
  unfold upload_proteomics_dataset
  simp only [hf, hh, hauth, truthy, optStr, hae, Bool.not_false, Bool.not_true,
    if_true, if_false, hann, hup, hid, Option.isSome_some]
  simp only [bne_self_eq_false, Bool.false_eq_true, ite_false, beq_self_eq_true,
    ite_true]
  cases pr <;> simp [List.filter, isPatch, jxOpt]

/-- Closed instance of C8's theorem at concrete responses. -/
theorem upload_links_with_two_patches_witness :
    (upload_proteomics_dataset fsW "/data/abund.tsv" none (some "ann1")
        "fragpipe-TMT" "/creds" true rsOk).2.1.filter isPatch =
      [{ method := .patch, url := stW.url ++ "/api/jobs/" ++ "ann1", headers := hdrW,
         body := .json (.obj [("proteomicsID", .str "prot1")]), timeout := none },
       { method := .patch, url := stW.url ++ UPLOAD_PROTEIN_ENDPOINT ++ "prot1",
         headers := hdrW,
         body := .json (.obj [("annotationID", .str "ann1")]), timeout := none }] :=
  upload_links_with_two_patches fsW "/data/abund.tsv" "/creds" "fragpipe-TMT"
    "ann1" "prot1" "Index\tNumberPSM\tProteinID\tMaxPepProb\tReferenceIntensity\nrow1"
    none true rsOk stW hdrW (by decide) (by decide) (by decide) (by decide)
    (by decide) (by decide) (by decide)

/-- C9: on the very same successful-upload path, the API module's
`upload_proteomics_dataset` returns the link dict only when `print_result`
is true; with `print_result = false` it instead raises the
"Upload failed with status code 200" `Exception`. -/
theorem upload_raises_unless_print_result (fs : FS) (file dir dtype a p content : String)
    (eaf : Option String) (rs : ProtResponses)
    (st : CachedAuth) (hdr : List (String × String))
    (hf : fs file = some content) (hh : headersPresent content = true)
    (hauth : authenticate fs dir = .ok (st, hdr)) (hane : a ≠ "")
    (hann : rs.annotation_response.status_code = 200)
    (hup : rs.upload_response.status_code = 200)
    (hid : jsonGetId rs.upload_response.text = some p) :
    (upload_proteomics_dataset fs file eaf (some a) dtype dir false rs).1 =
      .error (.exception ("Upload failed with status code "
        ++ toString rs.upload_response.status_code ++ ": " ++ rs.upload_response.text)) ∧
    (upload_proteomics_dataset fs file eaf (some a) dtype dir true rs).1 =
      .ok [("annotationID", some a), ("proteomicsID", some p)] := by
  have hae : a.isEmpty = false := isEmpty_false_of_ne a hane
  constructor <;>
  · unfold upload_proteomics_dataset
    simp only [hf, hh, hauth, truthy, optStr, hae, Bool.not_false, Bool.not_true,
      if_true, if_false, hann, hup, hid, Option.isSome_some]
    simp [bne_self_eq_false]

/-- Closed instance of C9's theorem at concrete responses. -/
theorem upload_raises_unless_print_result_witness :
    (upload_proteomics_dataset fsW "/data/abund.tsv" none (some "ann1")
        "fragpipe-TMT" "/creds" false rsOk).1 =
      .error (.exception ("Upload failed with status code "
        ++ toString rsOk.upload_response.status_code ++ ": "
        ++ rsOk.upload_response.text)) ∧
    (upload_proteomics_dataset fsW "/data/abund.tsv" none (some "ann1")
        "fragpipe-TMT" "/creds" true rsOk).1 =
      .ok [("annotationID", some "ann1"), ("proteomicsID", some "prot1")] :=
  upload_raises_unless_print_result fsW "/data/abund.tsv" "/creds" "fragpipe-TMT"
    "ann1" "prot1" "Index\tNumberPSM\tProteinID\tMaxPepProb\tReferenceIntensity\nrow1"
    none rsOk stW hdrW (by decide) (by decide) (by decide) (by decide)
    (by decide) (by decide) (by decide)

/-- C1 (counterexample): `query` is a client operation that sends an HTTP
request, yet on a concrete non-2xx response (status 500, body `BOOM`) it
raises a `NameError` whose message carries neither the status code nor the
body — refuting the claim that every listed operation raises an error
carrying both. -/
theorem query_error_lacks_status_and_body :
    (query fsW "/creds" "job1" "cadd: 20" 10 0 ⟨500, "BOOM"⟩).1 =
      .error (.nameError "name 'sys' is not defined") ∧
    errCarries 500 "BOOM" (query fsW "/creds" "job1" "cadd: 20" 10 0 ⟨500, "BOOM"⟩).1 =
      false := by
  exact ⟨by decide, by decide⟩

/-- C1 (amended): for `get_jobs`, `create_job`, `get_user`, `login` and
`signup`, whenever the operation actually sent its request and the response
status is non-2xx, it raises an error whose message carries the status code
and the response body text; `query` does not — its internal error is caught
by a handler whose own `sys.stderr.write` raises `NameError` (`sys` is not
imported in the API module), so a non-2xx response surfaces as that
`NameError` instead. -/
theorem ops_error_carries_status_and_body :
    (∀ (fs : FS) (dir : String) (jt jid : Option String) (resp : HttpResponse),
      ¬(200 ≤ resp.status_code ∧ resp.status_code < 300) →
      (get_jobs fs dir jt jid resp).2 ≠ [] →
      errCarries resp.status_code resp.text (get_jobs fs dir jt jid resp).1 = true) ∧
    (∀ (fs : FS) (dir : String) (fls : List String) (asm : String) (idx : Bool)
        (resp : HttpResponse),
      ¬(200 ≤ resp.status_code ∧ resp.status_code < 300) →
      (create_job fs dir fls asm idx resp).2 ≠ [] →
      errCarries resp.status_code resp.text (create_job fs dir fls asm idx resp).1 = true) ∧
    (∀ (fs : FS) (dir : String) (resp : HttpResponse),
      ¬(200 ≤ resp.status_code ∧ resp.status_code < 300) →
      (get_user fs dir resp).2 ≠ [] →
      errCarries resp.status_code resp.text (get_user fs dir resp).1 = true) ∧
    (∀ (fs : FS) (email pw host : String) (port : Nat) (dir : String)
        (resp : HttpResponse),
      ¬(200 ≤ resp.status_code ∧ resp.status_code < 300) →
      errCarries resp.status_code resp.text (login fs email pw host port dir resp).1 = true) ∧
    (∀ (fs : FS) (email pw name host : String) (port : Nat) (dir : String)
        (resp : HttpResponse),
      ¬(200 ≤ resp.status_code ∧ resp.status_code < 300) →
      errCarries resp.status_code resp.text
        (signup fs email pw name host port dir resp).1 = true) ∧
    (∀ (fs : FS) (dir : String) (st : CachedAuth) (hdr : List (String × String))
        (jid q : String) (size from_ : Int) (resp : HttpResponse),
      authenticate fs dir = .ok (st, hdr) →
      ¬(200 ≤ resp.status_code ∧ resp.status_code < 300) →
      (query fs dir jid q size from_ resp).1 =
        .error (.nameError "name 'sys' is not defined")) := by
  have hbne : ∀ s : Nat, ¬(200 ≤ s ∧ s < 300) → (s != 200) = true := by
    intro s hs
    have : s ≠ 200 := by omega
    simpa [bne_iff_ne] using this
  refine ⟨?_, ?_, ?_, ?_, ?_, ?_⟩
  · intro fs dir jt jid resp hs hsent
    have hb := hbne _ hs
    cases ha : authenticate fs dir with
    | error e =>
      unfold get_jobs at hsent
      rw [ha] at hsent
      exact absurd rfl hsent
    | ok sh =>
      obtain ⟨st, hdr⟩ := sh
      unfold get_jobs at hsent ⊢
      rw [ha] at hsent ⊢
      cases hc1 : truthy jid <;> cases hc2 : truthy jt <;>
        simp only [hc1, hc2, Bool.or_false, Bool.or_true, Bool.false_or,
          Bool.true_or, Bool.not_false, Bool.not_true, Bool.and_false,
          Bool.and_true, Bool.false_and, Bool.true_and, if_true, if_false,
          Bool.false_eq_true, ite_false, ite_true, hb, ne_eq] at hsent ⊢
      · exact (hsent trivial).elim
      · cases hc3 : jobTypeValid jt <;>
          simp only [hc3, Bool.not_false, Bool.not_true, if_true, if_false,
            Bool.false_eq_true, ite_false, ite_true] at hsent ⊢
        · exact (hsent trivial).elim
        · simp only [errCarries, ClientError.msg, Bool.and_eq_true]
          exact ⟨containsS_statusMid _ _ _ _, containsS_tail _ _⟩
      · simp only [errCarries, ClientError.msg, Bool.and_eq_true]
        exact ⟨containsS_statusMid _ _ _ _, containsS_tail _ _⟩
      · exact (hsent trivial).elim
  · intro fs dir fls asm idx resp hs hsent
    have hb := hbne _ hs
    cases ha : authenticate fs dir with
    | error e =>
      unfold create_job at hsent
      rw [ha] at hsent
      exact absurd rfl hsent
    | ok sh =>
      obtain ⟨st, hdr⟩ := sh
      unfold create_job
      rw [ha]
      simp only [hb, if_true, ite_true]
      simp only [errCarries, ClientError.msg, Bool.and_eq_true]
      exact ⟨containsS_statusMidSuf _ _ _ _ _, containsS_sandwich _ _ _⟩
  · intro fs dir resp hs hsent
    have hb := hbne _ hs
    cases ha : authenticate fs dir with
    | error e =>
      unfold get_user at hsent
      rw [ha] at hsent
      exact absurd rfl hsent
    | ok sh =>
      obtain ⟨st, hdr⟩ := sh
      unfold get_user
      rw [ha]
      simp only [hb, if_true, ite_true]
      simp only [errCarries, ClientError.msg, Bool.and_eq_true]
      exact ⟨containsS_statusMidSuf _ _ _ _ _, containsS_sandwich _ _ _⟩
  · intro fs email pw host port dir resp hs
    have hb := hbne _ hs
    unfold login
    simp only [hb, if_true, ite_true]
    simp only [errCarries, ClientError.msg, Bool.and_eq_true]
    exact ⟨containsS_statusMidSuf _ _ _ _ _, containsS_sandwich _ _ _⟩
  · intro fs email pw name host port dir resp hs
    have hb := hbne _ hs
    unfold signup
    simp only [hb, if_true, ite_true]
    simp only [errCarries, ClientError.msg, Bool.and_eq_true]
    exact ⟨containsS_statusMidSuf _ _ _ _ _, containsS_sandwich _ _ _⟩
  · intro fs dir st hdr jid q size from_ resp hauth hs
    have hb := hbne _ hs
    unfold query
    rw [hauth]
    simp only [hb, if_true, ite_true]

/-- Closed instances of the amended C1 theorem: a 404 on `get_jobs` and a 500
on `login`, both carrying status and body in the raised message. -/
theorem ops_error_carries_status_and_body_witness :
    errCarries 404 "not found"
      (get_jobs fsW "/creds" none (some "j1") ⟨404, "not found"⟩).1 = true ∧
    errCarries 500 "oops"
      (login fsW "e@x.com" "pw" "http://h" 443 "/c" ⟨500, "oops"⟩).1 = true := by
  constructor
  · refine ops_error_carries_status_and_body.1 fsW "/creds" none (some "j1")
      ⟨404, "not found"⟩ (by decide) ?_
    intro h
    have hl := congrArg List.length h
    rw [show ((get_jobs fsW "/creds" none (some "j1") ⟨404, "not found"⟩).2).length = 1
      from rfl] at hl
    exact absurd hl (by decide)
  · exact ops_error_carries_status_and_body.2.2.2.1 fsW "e@x.com" "pw" "http://h"
      443 "/c" ⟨500, "oops"⟩ (by decide)

end Bystro
